import Mathlib

/-!
Shallow embedding of the authentication token lifecycle of
`src/backend/src/core/security.py` and the configuration validator of
`src/backend/src/core/config.py`.

Conventions of the embedding:
* A JSON claim value is modelled by `ClaimValue` (strings and integers are
  the only value shapes the claims under study exercise).
* A Python dict of claims is modelled by an association list with
  first-match lookup; `dictSet` models `d[k] = v` (as performed by
  `dict.update`).
* Time is an integer count of seconds; a `timedelta` argument is an
  `Option Int` of seconds (Python `if expires_delta:` is falsy both for
  `None` and for a zero delta, which `pyTruthyDelta` captures).
* A JWT string is modelled by `Token`: its decoded payload together with
  the signing secret, the header algorithm, and a well-formedness flag
  (a garbage string is a token with `wellFormed := false`).
* `jwtDecode` models `jwt.decode(token, key, algorithms=[...])` from PyJWT:
  signature and algorithm are checked first, then the `exp` claim; an
  integer `exp` less than or equal to the current time raises
  `ExpiredSignatureError`, every other failure is some other `PyJWTError`.
  (A numeric-string `exp` accepted by `int()` is not modelled; no claim
  under study involves one.)
* Python exceptions escaping the functions are modelled by `AuthFailure`.
-/

namespace LabSecurity

/-- A JSON claim value: a string or an integer. -/
inductive ClaimValue where
  | str (s : String)
  | int (n : Int)
deriving DecidableEq, Repr

/-- A claims dict, as an association list with first-match lookup. -/
abbrev Claims : Type := List (String × ClaimValue)

/-- Python `d.get(k)`: the value at the first matching key, else `None`. -/
def lookupClaim (d : Claims) (k : String) : Option ClaimValue :=
  match d with
  | [] => none
  | (k2, v) :: rest => if k2 = k then some v else lookupClaim rest k

/-- Python `d[k] = v` (also what `d.update` does per key): the key now maps
to `v` and every other key is untouched. -/
def dictSet (d : Claims) (k : String) (v : ClaimValue) : Claims :=
  (List.filter (fun p => p.1 != k) d) ++ [(k, v)]

/-- Python truthiness of an optional claim value: `None`, the empty string
and the integer zero are falsy. -/
def pyFalsy : Option ClaimValue → Bool
  | none => true
  | some (.str s) => s == ""
  | some (.int n) => n == 0

/-- Python truthiness of an optional `timedelta`: `None` and a zero delta
are falsy (`if expires_delta:`). -/
def pyTruthyDelta : Option Int → Bool
  | none => false
  | some d => d != 0

/-- The slice of `Settings` (config.py) that security.py reads. -/
structure Settings where
  SECRET_KEY : String
  ALGORITHM : String
  TESTING : Bool
  SUPABASE_URL : String
  SUPABASE_KEY : String
deriving DecidableEq, Repr

/-- An encoded JWT: payload plus signing data, or a malformed string
(`wellFormed := false`). -/
structure Token where
  wellFormed : Bool
  alg : String
  payload : Claims
  secret : String
deriving DecidableEq, Repr

/-- The two failure shapes of `jwt.decode`: `ExpiredSignatureError`, or any
other `PyJWTError` (bad signature, malformed token, disallowed algorithm). -/
inductive DecodeFailure where
  | expiredSignature
  | otherJWTError
deriving DecidableEq, Repr

/-- Model of PyJWT `jwt.decode(token, key, algorithms)`: a malformed token,
a header algorithm outside the allowed list, or a signature made with a
different key each raise a generic `PyJWTError`; otherwise an integer `exp`
claim less than or equal to the current time raises
`ExpiredSignatureError`, and on success the payload is returned. -/
def jwtDecode (tok : Token) (key : String) (algorithms : List String)
    (now : Int) : Except DecodeFailure Claims :=
  if !tok.wellFormed then .error .otherJWTError
  else if !(algorithms.contains tok.alg) then .error .otherJWTError
  else if tok.secret != key then .error .otherJWTError
  else
    match lookupClaim tok.payload "exp" with
    | some (.int e) =>
        if e ≤ now then .error .expiredSignature else .ok tok.payload
    | some (.str _) => .error .otherJWTError
    | none => .ok tok.payload

/-- Model of `jwt.encode(payload, key, algorithm)`. -/
def jwtEncode (payload : Claims) (key : String) (alg : String) : Token :=
  { wellFormed := true, alg := alg, payload := payload, secret := key }

/-- The expiration computed by the issuers: `now + expires_delta` when the
delta is truthy (non-`None` and non-zero), else `now + default`. -/
def defaultedExpire (now : Int) (expires_delta : Option Int)
    (defaultDelta : Int) : Int :=
  if pyTruthyDelta expires_delta then now + expires_delta.getD 0
  else now + defaultDelta

/-- `create_access_token` (security.py): copy the claims, inject
`exp = now + delta` (default 15 minutes) and `type = "access"`, sign. -/
def create_access_token (st : Settings) (now : Int) (data : Claims)
    (expires_delta : Option Int) : Token :=
  let expire := defaultedExpire now expires_delta (15 * 60)
  let to_encode := dictSet (dictSet data "exp" (.int expire)) "type" (.str "access")
  jwtEncode to_encode st.SECRET_KEY st.ALGORITHM

/-- `create_refresh_token` (security.py): copy the claims, inject
`exp = now + delta` (default 7 days) and `type = "refresh"`, sign. -/
def create_refresh_token (st : Settings) (now : Int) (data : Claims)
    (expires_delta : Option Int) : Token :=
  let expire := defaultedExpire now expires_delta (7 * 24 * 60 * 60)
  let to_encode := dictSet (dictSet data "exp" (.int expire)) "type" (.str "refresh")
  jwtEncode to_encode st.SECRET_KEY st.ALGORITHM

/-- A failure escaping the resolver functions. `httpError` models FastAPI
`HTTPException(status_code, detail)`; `uncaughtError` models a Python
exception no handler catches. Modelled from the spec: the class
`ValidationError` lives in `src/core/errors.py`, which is absent from the
sources; the spec's error taxonomy lists it as a failure kind of its own,
distinct from the token-format errors. -/
inductive AuthFailure where
  | httpError (statusCode : Nat) (detail : String)
  | validationError (message : String)
  | uncaughtError (exceptionName : String)
deriving DecidableEq, Repr

/-- The spec's `TokenExpired` taxon: the 401 responses the code raises on
`ExpiredSignatureError`. -/
def isTokenExpiredFailure : AuthFailure → Bool
  | .httpError 401 "Token expired" => true
  | .httpError 401 "Refresh token expired" => true
  | _ => false

/-- The spec's `TokenInvalid` taxon: the 401 responses the code raises for
wrong type, missing claims, and generic decode/signature failure. -/
def isTokenInvalidFailure : AuthFailure → Bool
  | .httpError 401 "Invalid token type" => true
  | .httpError 401 "Invalid token payload" => true
  | .httpError 401 "Invalid authentication credentials" => true
  | .httpError 401 "Invalid refresh token" => true
  | _ => false

/-- Hex digit test, as `int(s, 16)` accepts per character. -/
def isHexDigitChar (c : Char) : Bool :=
  c.isDigit || (97 ≤ c.toNat && c.toNat ≤ 102) || (65 ≤ c.toNat && c.toNat ≤ 70)

/-- Model of `uuid.UUID(s)` for a string argument: hyphens are removed and
exactly 32 hex digits must remain, normalised to lowercase (the `urn:uuid:`
and brace decoration forms of the stdlib are not modelled; no claim under
study involves them). `none` models the `ValueError` the constructor
raises. -/
def parseUUID (s : String) : Option String :=
  let hex := List.filter (fun c => c != '-') s.toList
  if hex.length == 32 && hex.all isHexDigitChar then
    some (String.mk (hex.map Char.toLower))
  else none

/-- Model of `str(uuid)`: the canonical hyphenated 8-4-4-4-12 form of the
32-digit lowercase hex string. -/
def uuidStr (h : String) : String :=
  let cs := h.toList
  String.mk (cs.take 8) ++ "-" ++ String.mk ((cs.drop 8).take 4) ++ "-" ++
    String.mk ((cs.drop 12).take 4) ++ "-" ++ String.mk ((cs.drop 16).take 4) ++
    "-" ++ String.mk (cs.drop 20)

/-- The `User` schema. Modelled from the spec: `src/schemas/user.py` is
absent from the sources; the spec's data model gives a user identity as
subject UUID, display name, email, role. The UUID is carried as its
32-digit lowercase hex normal form. -/
structure User where
  user_id : String
  full_name : String
  email : String
  role : String
deriving DecidableEq, Repr

/-- One row of the `profiles` table as the Supabase query selects it. -/
structure Profile where
  full_name : String
  email : String
  role : String
deriving DecidableEq, Repr

/-- The outcome of the external profile-store lookup, as an oracle: the
response rows (`response.data` a list), a response with no data
(`response.data` absent or `None`), or any raised exception. -/
inductive StoreResult where
  | rows (profiles : List Profile)
  | noData
  | raised
deriving DecidableEq, Repr

/-- Python `c in s` for a character and a string. -/
def strContainsChar (s : String) (c : Char) : Bool :=
  s.toList.contains c

/-- The characters before the first occurrence of `c`. -/
def takeUntilChar (l : List Char) (c : Char) : List Char :=
  match l with
  | [] => []
  | x :: xs => if x == c then [] else x :: takeUntilChar xs c

/-- Python `s.split(c)[0]`: the prefix of `s` before the first `c` (all of
`s` when `c` does not occur). -/
def splitHead (s : String) (c : Char) : String :=
  String.mk (takeUntilChar s.toList c)

/-- `build_fallback_user` (closure inside `get_current_user`): display name
is the text before the first `@` of the email if the email is truthy and
contains `@`, else `str(user_uuid)`; an empty name degrades to `"user"`;
role is `"student"`. A non-string email makes `"@" in email` raise an
uncaught `TypeError`. -/
def build_fallback_user (user_uuid : String) (emailC : ClaimValue) :
    Except AuthFailure User :=
  match emailC with
  | .int _ => .error (.uncaughtError "TypeError")
  | .str email =>
    let fallback_name :=
      if email != "" && strContainsChar email '@' then splitHead email '@'
      else uuidStr user_uuid
    .ok { user_id := user_uuid,
          full_name := if fallback_name == "" then "user" else fallback_name,
          email := email, role := "student" }

/-- `get_current_user` (security.py): decode the bearer token (expired →
401 Token expired, other decode failure → 401 Invalid authentication
credentials), require `type == "access"` (else 401 Invalid token type),
require truthy `sub` and `email` (else 401 Invalid token payload), parse
`sub` as a UUID (failure → `ValidationError`), then resolve: in test mode
or with Supabase unconfigured build the fallback user; otherwise query the
store and fall back on empty data or on any exception, else build the
authoritative identity from the returned row. -/
def get_current_user (st : Settings) (now : Int) (store : StoreResult)
    (tok : Token) : Except AuthFailure User :=
  match jwtDecode tok st.SECRET_KEY [st.ALGORITHM] now with
  | .error .expiredSignature => .error (.httpError 401 "Token expired")
  | .error .otherJWTError => .error (.httpError 401 "Invalid authentication credentials")
  | .ok payload =>
    if lookupClaim payload "type" != some (.str "access") then
      .error (.httpError 401 "Invalid token type")
    else if pyFalsy (lookupClaim payload "sub") || pyFalsy (lookupClaim payload "email") then
      .error (.httpError 401 "Invalid token payload")
    else
      match lookupClaim payload "sub", lookupClaim payload "email" with
      | some (.str user_id), some emailC =>
        match parseUUID user_id with
        | none => .error (.validationError ("Invalid user ID format: " ++ user_id))
        | some user_uuid =>
          if st.TESTING || st.SUPABASE_URL == "" || st.SUPABASE_KEY == "" then
            build_fallback_user user_uuid emailC
          else
            match store with
            | .raised => build_fallback_user user_uuid emailC
            | .noData => build_fallback_user user_uuid emailC
            | .rows [] => build_fallback_user user_uuid emailC
            | .rows (profile :: _) =>
              .ok { user_id := user_uuid, full_name := profile.full_name,
                    email := profile.email, role := profile.role }
      | some (.int _), some _ => .error (.uncaughtError "AttributeError")
      | none, _ => .error (.httpError 401 "Invalid token payload")
      | some _, none => .error (.httpError 401 "Invalid token payload")

/-- `verify_refresh_token` (security.py): decode (expired → 401 Refresh
token expired, other decode failure → 401 Invalid refresh token), require
`type == "refresh"` (else 401 Invalid token type), and return the raw
payload. -/
def verify_refresh_token (st : Settings) (now : Int) (tok : Token) :
    Except AuthFailure Claims :=
  match jwtDecode tok st.SECRET_KEY [st.ALGORITHM] now with
  | .error .expiredSignature => .error (.httpError 401 "Refresh token expired")
  | .error .otherJWTError => .error (.httpError 401 "Invalid refresh token")
  | .ok payload =>
    if lookupClaim payload "type" != some (.str "refresh") then
      .error (.httpError 401 "Invalid token type")
    else .ok payload

/-- `get_current_admin` (security.py): the module defines this function
twice verbatim; the second definition shadows the first at import time, so
the effective behaviour is the well-formed one — reject a non-admin role
with 403 and return the identity unchanged otherwise. -/
def get_current_admin (current_user : User) : Except AuthFailure User :=
  if current_user.role != "admin" then
    .error (.httpError 403 "Admin access required")
  else .ok current_user

/-- `Settings.validate_secret_key` (config.py): an empty secret is always
rejected; in test mode any other value passes; in production the secret
must be at least 32 characters and contain an uppercase letter, a
lowercase letter, a digit, and a non-alphanumeric character. -/
def validate_secret_key (testing : Bool) (v : String) : Except String String :=
  if v == "" then .error "SECRET_KEY is required"
  else if testing then .ok v
  else if v.length < 32 then .error "SECRET_KEY must be at least 32 characters long"
  else
    let has_upper := v.toList.any Char.isUpper
    let has_lower := v.toList.any Char.isLower
    let has_digit := v.toList.any Char.isDigit
    let has_special := v.toList.any (fun c => !c.isAlphanum)
    if !(has_upper && has_lower && has_digit && has_special) then
      .error "SECRET_KEY must contain at least one uppercase letter, one lowercase letter, one digit, and one special character"
    else .ok v

/-! ### Dictionary lemmas -/

theorem lookupClaim_filter_self (d : Claims) (k : String) :
    lookupClaim (List.filter (fun p => p.1 != k) d) k = none := by
  induction d with
  | nil => rfl
  | cons p rest ih =>
    obtain ⟨k2, v⟩ := p
    by_cases h : k2 = k
    · simp [List.filter_cons, h, ih]
    · simp [List.filter_cons, h, lookupClaim, ih]

theorem lookupClaim_filter_other (d : Claims) (k k2 : String) (h : k2 ≠ k) :
    lookupClaim (List.filter (fun p => p.1 != k) d) k2 = lookupClaim d k2 := by
  induction d with
  | nil => rfl
  | cons p rest ih =>
    obtain ⟨k3, v⟩ := p
    by_cases h3 : k3 = k
    · simp [List.filter_cons, h3, lookupClaim, Ne.symm h, ih]
    · by_cases h32 : k3 = k2
      · simp [List.filter_cons, h3, lookupClaim, h32, h]
      · simp [List.filter_cons, h3, lookupClaim, h32, ih]

theorem lookupClaim_append_none (d1 d2 : Claims) (k : String)
    (h : lookupClaim d1 k = none) :
    lookupClaim (d1 ++ d2) k = lookupClaim d2 k := by
  induction d1 with
  | nil => rfl
  | cons p rest ih =>
    obtain ⟨k2, v⟩ := p
    by_cases h2 : k2 = k
    · simp [lookupClaim, h2] at h
    · simp [lookupClaim, h2] at h ⊢
      exact ih h

theorem lookupClaim_append_some (d1 d2 : Claims) (k : String) (v : ClaimValue)
    (h : lookupClaim d1 k = some v) :
    lookupClaim (d1 ++ d2) k = some v := by
  induction d1 with
  | nil => simp [lookupClaim] at h
  | cons p rest ih =>
    obtain ⟨k2, v2⟩ := p
    by_cases h2 : k2 = k
    · simp [lookupClaim, h2] at h ⊢
      exact h
    · simp [lookupClaim, h2] at h ⊢
      exact ih h

theorem lookupClaim_dictSet_self (d : Claims) (k : String) (v : ClaimValue) :
    lookupClaim (dictSet d k v) k = some v := by
  unfold dictSet
  rw [lookupClaim_append_none _ _ _ (lookupClaim_filter_self d k)]
  simp [lookupClaim]

theorem lookupClaim_dictSet_other (d : Claims) (k : String) (v : ClaimValue)
    (k2 : String) (h : k2 ≠ k) :
    lookupClaim (dictSet d k v) k2 = lookupClaim d k2 := by
  unfold dictSet
  rcases hcase : lookupClaim (List.filter (fun p => p.1 != k) d) k2 with _ | v2
  · rw [lookupClaim_append_none _ _ _ hcase]
    rw [← lookupClaim_filter_other d k k2 h, hcase]
    have hne : k ≠ k2 := fun hc => h hc.symm
    simp [lookupClaim, hne]
  · rw [lookupClaim_append_some _ _ _ _ hcase]
    rw [← lookupClaim_filter_other d k k2 h, hcase]

/-! ### Shared concrete inputs for witnesses and counterexamples -/

/-- A concrete test-mode configuration. -/
def sampleSettings : Settings :=
  { SECRET_KEY := "k", ALGORITHM := "HS256", TESTING := true,
    SUPABASE_URL := "", SUPABASE_KEY := "" }

/-- A concrete production-mode configuration with Supabase configured. -/
def prodSettings : Settings :=
  { SECRET_KEY := "k", ALGORITHM := "HS256", TESTING := false,
    SUPABASE_URL := "https://supabase.example", SUPABASE_KEY := "service-key" }

/-- A sample canonical hyphenated UUID string. -/
def uuidSample : String := "11111111-1111-1111-1111-111111111111"

/-- The 32-digit hex normal form of `uuidSample`. -/
def uuidHexSample : String := "11111111111111111111111111111111"

/-! ### Claim theorems -/

/-- C7: whatever the input claims dict holds — even caller-supplied
`"type"` or `"exp"` entries — the encoded access token carries type claim
exactly `"access"` and the issuer-computed expiration, and the encoded
refresh token carries type claim exactly `"refresh"` and the
issuer-computed expiration: the injected values overwrite the caller's. -/
theorem issuer_overwrites_type_and_exp (st : Settings) (now : Int)
    (data : Claims) (expires_delta : Option Int) :
    lookupClaim (create_access_token st now data expires_delta).payload "type" =
      some (.str "access") ∧
    lookupClaim (create_access_token st now data expires_delta).payload "exp" =
      some (.int (defaultedExpire now expires_delta (15 * 60))) ∧
    lookupClaim (create_refresh_token st now data expires_delta).payload "type" =
      some (.str "refresh") ∧
    lookupClaim (create_refresh_token st now data expires_delta).payload "exp" =
      some (.int (defaultedExpire now expires_delta (7 * 24 * 60 * 60))) := by
  have hek : ("exp" : String) ≠ "type" := by decide
  refine ⟨?_, ?_, ?_, ?_⟩
  · exact lookupClaim_dictSet_self _ _ _
  · rw [show (create_access_token st now data expires_delta).payload =
        dictSet (dictSet data "exp" (.int (defaultedExpire now expires_delta (15 * 60))))
          "type" (.str "access") from rfl]
    rw [lookupClaim_dictSet_other _ _ _ _ hek]
    exact lookupClaim_dictSet_self _ _ _
  · exact lookupClaim_dictSet_self _ _ _
  · rw [show (create_refresh_token st now data expires_delta).payload =
        dictSet (dictSet data "exp" (.int (defaultedExpire now expires_delta (7 * 24 * 60 * 60))))
          "type" (.str "refresh") from rfl]
    rw [lookupClaim_dictSet_other _ _ _ _ hek]
    exact lookupClaim_dictSet_self _ _ _

/-- C6 counterexample: the issuers test the duration argument for Python
truthiness (`if expires_delta:`), so an explicit zero duration is treated
like an absent one — `create_access_token` at time 1000 with an explicit
duration of 0 seconds stamps `exp = 1900` (the 15-minute default), not
`1000 + 0` as the claim requires for every explicit duration. -/
theorem create_token_zero_delta_counterexample :
    lookupClaim (create_access_token sampleSettings 1000 [] (some 0)).payload "exp" =
      some (.int 1900) ∧
    (1900 : Int) ≠ 1000 + 0 := by
  exact ⟨rfl, by decide⟩

/-- C6 amended: with no explicit duration, `create_access_token` stamps
`exp = now + 15` minutes and `create_refresh_token` stamps
`exp = now + 7` days; with an explicit NONZERO duration `D`, both stamp
`exp = now + D` (an explicit zero duration falls back to the default, see
the counterexample); in all cases the encoded payload is the original
claims dict at every key other than the injected `exp` and `type`, plus
the injected `exp` and `type` claims. -/
theorem token_issuer_expirations (st : Settings) (now : Int) (data : Claims)
    (D : Int) (k : String) (hD : D ≠ 0) (hk1 : k ≠ "exp") (hk2 : k ≠ "type") :
    lookupClaim (create_access_token st now data none).payload "exp" =
      some (.int (now + 15 * 60)) ∧
    lookupClaim (create_refresh_token st now data none).payload "exp" =
      some (.int (now + 7 * 24 * 60 * 60)) ∧
    lookupClaim (create_access_token st now data (some D)).payload "exp" =
      some (.int (now + D)) ∧
    lookupClaim (create_refresh_token st now data (some D)).payload "exp" =
      some (.int (now + D)) ∧
    lookupClaim (create_access_token st now data (some D)).payload k = lookupClaim data k ∧
    lookupClaim (create_access_token st now data none).payload k = lookupClaim data k ∧
    lookupClaim (create_refresh_token st now data (some D)).payload k = lookupClaim data k ∧
    lookupClaim (create_refresh_token st now data none).payload k = lookupClaim data k ∧
    lookupClaim (create_access_token st now data none).payload "type" =
      some (.str "access") ∧
    lookupClaim (create_refresh_token st now data none).payload "type" =
      some (.str "refresh") := by
  have hexp : ∀ delta : Option Int, ∀ defaultDelta : Int, ∀ ty : ClaimValue,
      lookupClaim (dictSet (dictSet data "exp" (.int (defaultedExpire now delta defaultDelta))) "type" ty) "exp" =
        some (.int (defaultedExpire now delta defaultDelta)) := by
    intro delta defaultDelta ty
    rw [lookupClaim_dictSet_other _ _ _ _ (by decide : ("exp" : String) ≠ "type")]
    exact lookupClaim_dictSet_self _ _ _
  have hpres : ∀ delta : Option Int, ∀ defaultDelta : Int, ∀ ty : ClaimValue,
      lookupClaim (dictSet (dictSet data "exp" (.int (defaultedExpire now delta defaultDelta))) "type" ty) k =
        lookupClaim data k := by
    intro delta defaultDelta ty
    rw [lookupClaim_dictSet_other _ _ _ _ hk2, lookupClaim_dictSet_other _ _ _ _ hk1]
  have hnone : ∀ defaultDelta : Int, defaultedExpire now none defaultDelta = now + defaultDelta := by
    intro defaultDelta
    simp [defaultedExpire, pyTruthyDelta]
  have hsome : ∀ defaultDelta : Int, defaultedExpire now (some D) defaultDelta = now + D := by
    intro defaultDelta
    simp [defaultedExpire, pyTruthyDelta, hD]
  refine ⟨?_, ?_, ?_, ?_, hpres _ _ _, hpres _ _ _, hpres _ _ _, hpres _ _ _,
    lookupClaim_dictSet_self _ _ _, lookupClaim_dictSet_self _ _ _⟩
  · rw [show (create_access_token st now data none).payload =
      dictSet (dictSet data "exp" (.int (defaultedExpire now none (15 * 60)))) "type" (.str "access") from rfl]
    rw [hexp, hnone]
  · rw [show (create_refresh_token st now data none).payload =
      dictSet (dictSet data "exp" (.int (defaultedExpire now none (7 * 24 * 60 * 60)))) "type" (.str "refresh") from rfl]
    rw [hexp, hnone]
  · rw [show (create_access_token st now data (some D)).payload =
      dictSet (dictSet data "exp" (.int (defaultedExpire now (some D) (15 * 60)))) "type" (.str "access") from rfl]
    rw [hexp, hsome]
  · rw [show (create_refresh_token st now data (some D)).payload =
      dictSet (dictSet data "exp" (.int (defaultedExpire now (some D) (7 * 24 * 60 * 60)))) "type" (.str "refresh") from rfl]
    rw [hexp, hsome]

/-- C6 witness: the amended issuer theorem applied at time 0, claims dict
`sub = x`, explicit duration 60 seconds, and spectator key `"sub"`. -/
theorem token_issuer_expirations_witness :
    lookupClaim (create_access_token sampleSettings 0 [("sub", .str "x")] none).payload "exp" =
      some (.int 900) ∧
    lookupClaim (create_access_token sampleSettings 0 [("sub", .str "x")] (some 60)).payload "exp" =
      some (.int 60) ∧
    lookupClaim (create_access_token sampleSettings 0 [("sub", .str "x")] (some 60)).payload "sub" =
      lookupClaim [("sub", .str "x")] "sub" := by
  have h := token_issuer_expirations sampleSettings 0 [("sub", .str "x")] 60 "sub"
    (by decide) (by decide) (by decide)
  exact ⟨h.1, h.2.2.1, h.2.2.2.2.1⟩

/-- A well-signed unexpired token carrying type `refresh` and full subject
claims, for presenting where an access token is required. -/
def refreshTypeTok : Token :=
  { wellFormed := true, alg := "HS256",
    payload := [("type", .str "refresh"), ("sub", .str uuidSample),
      ("email", .str "a@example.com")],
    secret := "k" }

/-- A well-signed unexpired token carrying type `access` and full subject
claims. -/
def accessTypeTok : Token :=
  { wellFormed := true, alg := "HS256",
    payload := [("type", .str "access"), ("sub", .str uuidSample),
      ("email", .str "a@example.com")],
    secret := "k" }

/-- A well-signed access-type token whose `exp` claim (time 3) has passed
at time 5. -/
def expiredTok : Token :=
  { wellFormed := true, alg := "HS256",
    payload := [("type", .str "access"), ("sub", .str uuidSample),
      ("email", .str "a@example.com"), ("exp", .int 3)],
    secret := "k" }

/-- C1: when the decoded type claim is not the one the operation context
requires, the operation is rejected with the `TokenInvalid` taxon:
`get_current_user` rejects any decoded type claim other than `"access"`
and `verify_refresh_token` rejects any decoded type claim other than
`"refresh"`, both with 401 Invalid token type. -/
theorem wrong_type_claim_rejected (st : Settings) (now : Int)
    (store : StoreResult) (tok : Token) (payload : Claims)
    (hdec : jwtDecode tok st.SECRET_KEY [st.ALGORITHM] now = .ok payload) :
    (lookupClaim payload "type" ≠ some (.str "access") →
      get_current_user st now store tok = .error (.httpError 401 "Invalid token type")) ∧
    (lookupClaim payload "type" ≠ some (.str "refresh") →
      verify_refresh_token st now tok = .error (.httpError 401 "Invalid token type")) ∧
    isTokenInvalidFailure (.httpError 401 "Invalid token type") = true := by
  refine ⟨?_, ?_, rfl⟩
  · intro h
    simp [get_current_user, hdec, h]
  · intro h
    simp [verify_refresh_token, hdec, h]

/-- C1 witness: the refresh-type token fails identity resolution and the
access-type token fails refresh verification, both with Invalid token
type. -/
theorem wrong_type_claim_rejected_witness :
    get_current_user sampleSettings 0 StoreResult.raised refreshTypeTok =
      .error (.httpError 401 "Invalid token type") ∧
    verify_refresh_token sampleSettings 0 accessTypeTok =
      .error (.httpError 401 "Invalid token type") := by
  refine ⟨?_, ?_⟩
  · exact (wrong_type_claim_rejected sampleSettings 0 StoreResult.raised refreshTypeTok
      refreshTypeTok.payload rfl).1 (by simp [refreshTypeTok, lookupClaim])
  · exact (wrong_type_claim_rejected sampleSettings 0 StoreResult.raised accessTypeTok
      accessTypeTok.payload rfl).2.1 (by simp [accessTypeTok, lookupClaim])

/-- C2: a well-formed token signed with the configured secret and
algorithm whose integer `exp` claim has passed fails with the
`TokenExpired` taxon in both `get_current_user` and
`verify_refresh_token`, never with `TokenInvalid`; and any token whose
decode fails for another reason (malformed, wrong algorithm, wrong key)
fails with the `TokenInvalid` taxon in both operations. -/
theorem expired_token_yields_expired (st : Settings) (now : Int)
    (store : StoreResult) (tok : Token) (e : Int)
    (hw : tok.wellFormed = true) (halg : tok.alg = st.ALGORITHM)
    (hsec : tok.secret = st.SECRET_KEY)
    (hexp : lookupClaim tok.payload "exp" = some (.int e)) (hpast : e ≤ now) :
    (get_current_user st now store tok = .error (.httpError 401 "Token expired") ∧
     verify_refresh_token st now tok = .error (.httpError 401 "Refresh token expired") ∧
     isTokenExpiredFailure (.httpError 401 "Token expired") = true ∧
     isTokenExpiredFailure (.httpError 401 "Refresh token expired") = true ∧
     isTokenInvalidFailure (.httpError 401 "Token expired") = false ∧
     isTokenInvalidFailure (.httpError 401 "Refresh token expired") = false) ∧
    (∀ tok2 : Token,
      jwtDecode tok2 st.SECRET_KEY [st.ALGORITHM] now = .error .otherJWTError →
      get_current_user st now store tok2 =
        .error (.httpError 401 "Invalid authentication credentials") ∧
      verify_refresh_token st now tok2 = .error (.httpError 401 "Invalid refresh token") ∧
      isTokenInvalidFailure (.httpError 401 "Invalid authentication credentials") = true ∧
      isTokenInvalidFailure (.httpError 401 "Invalid refresh token") = true) := by
  have hdec : jwtDecode tok st.SECRET_KEY [st.ALGORITHM] now = .error .expiredSignature := by
    simp [jwtDecode, hw, halg, hsec, hexp, hpast]
  refine ⟨⟨?_, ?_, rfl, rfl, rfl, rfl⟩, ?_⟩
  · simp [get_current_user, hdec]
  · simp [verify_refresh_token, hdec]
  · intro tok2 hdec2
    exact ⟨by simp [get_current_user, hdec2], by simp [verify_refresh_token, hdec2], rfl, rfl⟩

/-- C2 witness: the concrete expired token at time 5 fails both operations
with the expired taxon. -/
theorem expired_token_yields_expired_witness :
    get_current_user sampleSettings 5 StoreResult.raised expiredTok =
      .error (.httpError 401 "Token expired") ∧
    verify_refresh_token sampleSettings 5 expiredTok =
      .error (.httpError 401 "Refresh token expired") := by
  have h := expired_token_yields_expired sampleSettings 5 StoreResult.raised expiredTok 3
    rfl rfl rfl rfl (by decide)
  exact ⟨h.1.1, h.1.2.1⟩

/-- C9: a token that decodes successfully with type `access` but lacks the
subject-ID claim or the email claim fails `get_current_user` with 401
Invalid token payload, a `TokenInvalid` taxon member. -/
theorem missing_sub_or_email_rejected (st : Settings) (now : Int)
    (store : StoreResult) (tok : Token) (payload : Claims)
    (hdec : jwtDecode tok st.SECRET_KEY [st.ALGORITHM] now = .ok payload)
    (htype : lookupClaim payload "type" = some (.str "access"))
    (hmiss : lookupClaim payload "sub" = none ∨ lookupClaim payload "email" = none) :
    get_current_user st now store tok = .error (.httpError 401 "Invalid token payload") ∧
    isTokenInvalidFailure (.httpError 401 "Invalid token payload") = true := by
  refine ⟨?_, rfl⟩
  rcases hmiss with h | h
  · simp [get_current_user, hdec, htype, h, pyFalsy]
  · simp [get_current_user, hdec, htype, h, pyFalsy]

/-- C9 witness: an access-type token carrying no `sub` claim is rejected
with Invalid token payload. -/
theorem missing_sub_or_email_rejected_witness :
    get_current_user sampleSettings 0 StoreResult.raised
      { wellFormed := true, alg := "HS256", payload := [("type", .str "access")],
        secret := "k" } =
      .error (.httpError 401 "Invalid token payload") :=
  (missing_sub_or_email_rejected sampleSettings 0 StoreResult.raised
    { wellFormed := true, alg := "HS256", payload := [("type", .str "access")],
      secret := "k" }
    [("type", .str "access")] rfl rfl (Or.inl rfl)).1

/-- C5: a token that decodes successfully with type `access` and truthy
string subject and truthy email claims, whose subject does not parse as a
UUID, fails `get_current_user` with `ValidationError` — an error kind
distinct from both token taxa — and never yields an identity. -/
theorem non_uuid_subject_validation_error (st : Settings) (now : Int)
    (store : StoreResult) (tok : Token) (payload : Claims)
    (user_id : String) (emailC : ClaimValue)
    (hdec : jwtDecode tok st.SECRET_KEY [st.ALGORITHM] now = .ok payload)
    (htype : lookupClaim payload "type" = some (.str "access"))
    (hsub : lookupClaim payload "sub" = some (.str user_id))
    (hemail : lookupClaim payload "email" = some emailC)
    (hsne : user_id ≠ "") (hene : pyFalsy (some emailC) = false)
    (hbad : parseUUID user_id = none) :
    get_current_user st now store tok =
      .error (.validationError ("Invalid user ID format: " ++ user_id)) ∧
    (∀ msg : String, isTokenInvalidFailure (.validationError msg) = false ∧
      isTokenExpiredFailure (.validationError msg) = false) := by
  refine ⟨?_, fun msg => ⟨rfl, rfl⟩⟩
  have hsubf : pyFalsy (some (.str user_id)) = false := by
    simp [pyFalsy, hsne]
  simp [get_current_user, hdec, htype, hsub, hemail, hsubf, hene, hbad]

/-- C5 witness: a signed access token whose subject is `not-a-uuid` fails
with the validation error naming that subject. -/
theorem non_uuid_subject_validation_error_witness :
    get_current_user sampleSettings 0 StoreResult.raised
      { wellFormed := true, alg := "HS256",
        payload := [("type", .str "access"), ("sub", .str "not-a-uuid"),
          ("email", .str "a@example.com")],
        secret := "k" } =
      .error (.validationError "Invalid user ID format: not-a-uuid") :=
  (non_uuid_subject_validation_error sampleSettings 0 StoreResult.raised
    { wellFormed := true, alg := "HS256",
      payload := [("type", .str "access"), ("sub", .str "not-a-uuid"),
        ("email", .str "a@example.com")],
      secret := "k" }
    [("type", .str "access"), ("sub", .str "not-a-uuid"),
      ("email", .str "a@example.com")]
    "not-a-uuid" (.str "a@example.com") rfl rfl rfl rfl (by decide) rfl rfl).1

/-- C3: with the external store configured (production mode, URL and key
set), a valid access token still resolves to the fallback identity when
the store lookup raises, returns no data attribute, or returns an empty
row list — the failure is never surfaced, and the fallback construction
succeeds with role `student`. -/
theorem store_failure_falls_back (st : Settings) (now : Int) (tok : Token)
    (payload : Claims) (user_id uuid email : String)
    (hdec : jwtDecode tok st.SECRET_KEY [st.ALGORITHM] now = .ok payload)
    (htype : lookupClaim payload "type" = some (.str "access"))
    (hsub : lookupClaim payload "sub" = some (.str user_id))
    (hemail : lookupClaim payload "email" = some (.str email))
    (hsne : user_id ≠ "") (hene : email ≠ "")
    (huuid : parseUUID user_id = some uuid)
    (htest : st.TESTING = false) (hurl : st.SUPABASE_URL ≠ "")
    (hkey : st.SUPABASE_KEY ≠ "") :
    get_current_user st now StoreResult.raised tok =
      build_fallback_user uuid (.str email) ∧
    get_current_user st now StoreResult.noData tok =
      build_fallback_user uuid (.str email) ∧
    get_current_user st now (StoreResult.rows []) tok =
      build_fallback_user uuid (.str email) ∧
    ∃ u : User, build_fallback_user uuid (.str email) = .ok u ∧ u.role = "student" := by
  refine ⟨?_, ?_, ?_, ⟨_, rfl, rfl⟩⟩ <;>
    simp [get_current_user, hdec, htype, hsub, hemail, pyFalsy, hsne, hene, huuid,
      htest, hurl, hkey]

/-- C3 witness: in the production configuration, a raising store lookup
still yields the fallback identity for the sample access token. -/
theorem store_failure_falls_back_witness :
    get_current_user prodSettings 0 StoreResult.raised accessTypeTok =
      build_fallback_user uuidHexSample (.str "a@example.com") :=
  (store_failure_falls_back prodSettings 0 accessTypeTok accessTypeTok.payload
    uuidSample uuidHexSample "a@example.com" rfl rfl rfl rfl (by decide) (by decide)
    rfl rfl (by decide) (by decide)).1

/-- The hyphenated rendering of a UUID is never the empty string. -/
theorem uuidStr_ne_empty (h : String) : uuidStr h ≠ "" := by
  intro hc
  have hone : ("-" : String).length = 1 := rfl
  have hlen := congrArg String.length hc
  simp [uuidStr, String.length_append, hone] at hlen

/-- C4 counterexample: in test mode, for the valid access token whose
email is `@example.com` (empty local-part), `get_current_user` returns
display name `"user"` — neither the email's local-part (the empty string)
nor the subject-ID string, contradicting the claimed dichotomy. -/
theorem fallback_name_counterexample :
    get_current_user sampleSettings 0 StoreResult.raised
      { wellFormed := true, alg := "HS256",
        payload := [("type", .str "access"), ("sub", .str uuidSample),
          ("email", .str "@example.com")],
        secret := "k" } =
      .ok { user_id := uuidHexSample, full_name := "user",
            email := "@example.com", role := "student" } ∧
    splitHead "@example.com" '@' = "" ∧
    ("user" : String) ≠ "" ∧
    ("user" : String) ≠ uuidStr uuidHexSample := by
  refine ⟨rfl, rfl, by decide, by decide⟩

/-- C4 amended: in test mode or with the external store unconfigured, a
valid access token resolves without consulting the store (the result is
independent of the store oracle) to a fallback identity with role
`student` whose display name is the email's local-part when the email
contains `@` and the local-part is non-empty, the literal `"user"` when
the email contains `@` but the local-part is empty, and the subject-ID
string when the email contains no `@`. -/
theorem testing_fallback_identity (st : Settings) (now : Int)
    (store : StoreResult) (tok : Token) (payload : Claims)
    (user_id uuid email : String)
    (hdec : jwtDecode tok st.SECRET_KEY [st.ALGORITHM] now = .ok payload)
    (htype : lookupClaim payload "type" = some (.str "access"))
    (hsub : lookupClaim payload "sub" = some (.str user_id))
    (hemail : lookupClaim payload "email" = some (.str email))
    (hsne : user_id ≠ "") (hene : email ≠ "")
    (huuid : parseUUID user_id = some uuid)
    (hmode : st.TESTING = true ∨ st.SUPABASE_URL = "" ∨ st.SUPABASE_KEY = "") :
    (∀ store2 : StoreResult,
      get_current_user st now store2 tok = get_current_user st now store tok) ∧
    get_current_user st now store tok =
      .ok { user_id := uuid,
            full_name :=
              if strContainsChar email '@' then
                (if splitHead email '@' = "" then "user"
                 else splitHead email '@')
              else uuidStr uuid,
            email := email, role := "student" } := by
  have hcond : (st.TESTING || st.SUPABASE_URL == "" || st.SUPABASE_KEY == "") = true := by
    rcases hmode with h | h | h <;> simp [h]
  have key : ∀ store2 : StoreResult,
      get_current_user st now store2 tok = build_fallback_user uuid (.str email) := by
    intro store2
    simp [get_current_user, hdec, htype, hsub, hemail, pyFalsy, hsne, hene, huuid, hcond]
  refine ⟨fun store2 => by rw [key, key], ?_⟩
  rw [key]
  unfold build_fallback_user
  by_cases hat : strContainsChar email '@'
  · by_cases hlp : splitHead email '@' = ""
    · simp [hene, hat, hlp]
    · simp [hene, hat, hlp]
  · simp [hene, hat, uuidStr_ne_empty uuid]

/-- C4 witness: the amended fallback theorem applied to the sample access
token in the test-mode configuration. -/
theorem testing_fallback_identity_witness :
    get_current_user sampleSettings 0 (StoreResult.rows []) accessTypeTok =
      get_current_user sampleSettings 0 StoreResult.raised accessTypeTok ∧
    get_current_user sampleSettings 0 StoreResult.raised accessTypeTok =
      .ok { user_id := uuidHexSample,
            full_name :=
              if strContainsChar "a@example.com" '@' then
                (if splitHead "a@example.com" '@' = "" then "user"
                 else splitHead "a@example.com" '@')
              else uuidStr uuidHexSample,
            email := "a@example.com", role := "student" } := by
  have h := testing_fallback_identity sampleSettings 0 StoreResult.raised accessTypeTok
    accessTypeTok.payload uuidSample uuidHexSample "a@example.com" rfl rfl rfl rfl
    (by decide) (by decide) rfl (Or.inl rfl)
  exact ⟨h.1 (StoreResult.rows []), h.2⟩

/-- A concrete identity with the admin role. -/
def adminUser : User :=
  { user_id := uuidHexSample, full_name := "Ada", email := "ada@example.com",
    role := "admin" }

/-- A concrete identity with the student role. -/
def studentUser : User :=
  { user_id := uuidHexSample, full_name := "Stu", email := "stu@example.com",
    role := "student" }

/-- C8: the admin gate rejects with a 403 authorization failure every
identity whose role is not `admin`, and returns any admin identity
unchanged. (The module's verbatim duplicate definition of the guard is
shadowed at import time; this is the effective, well-formed version.) -/
theorem admin_gate (u : User) :
    (u.role ≠ "admin" →
      get_current_admin u = .error (.httpError 403 "Admin access required")) ∧
    (u.role = "admin" → get_current_admin u = .ok u) := by
  constructor <;> intro h <;> simp [get_current_admin, h]

/-- C8 witness: the admin identity passes through unchanged and the
student identity is rejected with 403. -/
theorem admin_gate_witness :
    get_current_admin adminUser = .ok adminUser ∧
    get_current_admin studentUser = .error (.httpError 403 "Admin access required") :=
  ⟨(admin_gate adminUser).2 rfl, (admin_gate studentUser).1 (by decide)⟩

/-- C10 counterexample: in test mode the validator still rejects the empty
secret (`if not v` runs before the test-mode early return), so not every
secret value is accepted when the requirements are said to be entirely
relaxed. -/
theorem validate_secret_key_empty_testing_counterexample :
    validate_secret_key true "" = .error "SECRET_KEY is required" ∧
    validate_secret_key true "" ≠ .ok "" := by
  refine ⟨rfl, ?_⟩
  simp [validate_secret_key]

/-- C10 amended: the validator accepts a secret in test mode exactly when
it is non-empty (length and character-class requirements are relaxed, but
an empty secret is always rejected), and in production mode exactly when
it is non-empty, at least 32 characters long, and contains an uppercase
letter, a lowercase letter, a digit, and a non-alphanumeric character. -/
theorem validate_secret_key_spec (v : String) :
    (validate_secret_key true v = .ok v ↔ v ≠ "") ∧
    (validate_secret_key false v = .ok v ↔
      (v ≠ "" ∧ 32 ≤ v.length ∧ v.toList.any Char.isUpper = true ∧
       v.toList.any Char.isLower = true ∧ v.toList.any Char.isDigit = true ∧
       v.toList.any (fun c => !c.isAlphanum) = true)) := by
  constructor
  · by_cases h : v = "" <;> simp [validate_secret_key, h]
  · by_cases h : v = ""
    · simp [validate_secret_key, h]
    · by_cases hlen : v.length < 32
      · have hlen2 : ¬ 32 ≤ v.length := by omega
        simp [validate_secret_key, h, hlen, hlen2]
      · have hlen2 : 32 ≤ v.length := by omega
        by_cases hu : ∃ x ∈ v.data, x.isUpper = true
        · by_cases hl : ∃ x ∈ v.data, x.isLower = true
          · by_cases hd : ∃ x ∈ v.data, x.isDigit = true
            · by_cases hs : ∃ x ∈ v.data, x.isAlphanum = false
              · simp [validate_secret_key, h, hlen, hlen2, hu, hl, hd, hs]
              · simp [validate_secret_key, h, hlen, hu, hl, hd, hs]
            · simp [validate_secret_key, h, hlen, hu, hl, hd]
          · simp [validate_secret_key, h, hlen, hu, hl]
        · simp [validate_secret_key, h, hlen, hu]

end LabSecurity
